import Mathlib

/-!
Shallow embedding of the logging core in `src/logger.c` / `src/logger.h`
(fairiestoy/logger.c).

Conventions of the embedding:
* C strings (`char *`) are `List Char`; a nullable string pointer is
  `Option (List Char)`.
* The opaque `void *output_object` destination handle is `Option Nat`
  (`none` = NULL; `some 0` stands for `stdout`, `some 1` for the file
  handle opened by the file factory).
* Function-pointer capabilities are Lean functions; a nullable function
  pointer is an `Option` of the function type.
* Machine `int`/`time_t` values are `Int`.  No arithmetic in the logger
  ever approaches the width of a machine integer, so no modular
  reduction is needed.
* `logger_log` never assigns to the static `Logger` structure, so its
  translation takes the context as a read-only argument and returns the
  list of observable events (stderr diagnostics, calls of the transform
  and output capabilities) it performs, in order.
* Library effects that the logger only observes through a return value
  (`fopen`, `atexit`) are supplied by an oracle record of booleans;
  `strftime`'s locale-dependent output is opaque and modelled as the
  decimal rendering of the timestamp (only its nonemptiness is ever used
  by the code).
-/

/-- Constant `LOGGER_MESSAGE_BUFFER` from logger.h. -/
def LOGGER_MESSAGE_BUFFER : Nat := 2048

/-- Severity constants from logger.h (non-syslog branch). -/
def LOGGER_EMERGENCY : Int := 0

def LOGGER_DEBUG : Int := 7

/-- Type `logger_push_log`: `int (*)(void const * const, char const * const)`.
The message argument is nullable because `logger_log` forwards the
transform result unchecked. -/
def PushLogFn : Type := Option Nat → Option (List Char) → Int

/-- Type `logger_transform`:
`char *(*)(time_t const, int const, char const * const, int const, char *)`.
The dispatch path always passes a real file name and a real buffer, so
only the result is nullable here. -/
def TransformFn : Type := Int → Int → List Char → Int → List Char → Option (List Char)

/-- The `logging_context` structure from logger.c. -/
structure logging_context where
  log_level : Int
  output_object : Option Nat
  output_function : Option PushLogFn
  transform_function : Option TransformFn
  is_active : Bool

/-- The `static logging_context Logger = {0};` zero-initialised context. -/
def zero_context : logging_context :=
  { log_level := 0
    output_object := none
    output_function := none
    transform_function := none
    is_active := false }

/-- Observable events of one `logger_log` call, in program order. -/
inductive LogEvent where
  /-- an `fprintf(stderr, ...)` diagnostic -/
  | diagnostic (msg : List Char)
  /-- invocation of `Logger.transform_function` with these arguments -/
  | transformCall (timestamp severity : Int) (file : List Char) (linenumber : Int)
      (msg : List Char)
  /-- invocation of `Logger.output_function` with these arguments -/
  | sinkCall (obj : Option Nat) (msg : Option (List Char))
  /-- a call through a null function pointer (undefined behaviour in C) -/
  | nullCall
deriving DecidableEq

def diag_invalid_call : List Char :=
  "Could not log message - empty or outside log levels\n".toList

def diag_empty_format : List Char :=
  "Could not log message - pre-formatting returned 0 bytes\n".toList

def diag_push_failed : List Char :=
  "Could not log message - push function failed\n".toList

/-- Model of `vsnprintf(buf, cap, fmt, args)`: `formatted` is the full
interpolation of the format string with its variadic arguments.  The
call stores at most `cap - 1` units (one unit is reserved for the
terminator) and returns the full formatted length, terminator
excluded. -/
def vsnprintf_model (cap : Nat) (formatted : List Char) : Int × List Char :=
  ((formatted.length : Int), formatted.take (cap - 1))

/-- Function `logger_log` from logger.c, lines 182–201.  `interpolated` is the
full result of interpolating the variadic arguments into the format
string `message` (an oracle for the variadic machinery; it is only
consulted after the null check on `message` passes, mirroring that
`vsnprintf` only runs then). -/
def logger_log (L : logging_context) (now : Int) (log_level : Int)
    (file : Option (List Char)) (linenumber : Int)
    (message : Option (List Char)) (interpolated : List Char) : List LogEvent :=
  if log_level < 0 || log_level > 7 || message.isNone || file.isNone then
    [.diagnostic diag_invalid_call]
  else if log_level > L.log_level || L.is_active == false then
    []
  else
    let written := vsnprintf_model LOGGER_MESSAGE_BUFFER interpolated
    if written.1 < 1 then
      [.diagnostic diag_empty_format]
    else
      match L.transform_function, L.output_function with
      | some transform, some output =>
        let transformed := transform now log_level (file.getD []) linenumber written.2
        let status := output L.output_object transformed
        [.transformCall now log_level (file.getD []) linenumber written.2,
          .sinkCall L.output_object transformed]
          ++ (if status < 1 then [.diagnostic diag_push_failed] else [])
      | _, _ => [.nullCall]

/-- Function `logger_setup_context` from logger.c, lines 241–258. -/
def logger_setup_context (log_level : Int) (output_data : Option Nat)
    (output_function : Option PushLogFn) (transform_function : Option TransformFn)
    (is_active : Bool) (L : logging_context) : Int × logging_context :=
  if log_level < 0 || log_level > 7 then
    (0, L)
  else if output_function.isNone || transform_function.isNone then
    (-1, L)
  else
    (1, { log_level := log_level
          output_object := output_data
          output_function := output_function
          transform_function := transform_function
          is_active := is_active })

/-- Function `logger_set_output_callback` from logger.c, lines 275–280. -/
def logger_set_output_callback (new_output : Option PushLogFn)
    (L : logging_context) : Int × logging_context :=
  if L.output_function.isNone || new_output.isNone then
    (0, L)
  else
    (1, { L with output_function := new_output })

/-- Function `logger_set_loglevel` from logger.c, lines 297–302.  Note: only the
lower bound is checked. -/
def logger_set_loglevel (log_level : Int) (L : logging_context) :
    Int × logging_context :=
  if log_level < 0 || L.log_level == log_level then
    (0, L)
  else
    (1, { L with log_level := log_level })

/-- Function `logger_set_transform` from logger.c, lines 319–324.  The
initialisation guard inspects `output_function`, exactly as the C
does. -/
def logger_set_transform (new_transform : Option TransformFn)
    (L : logging_context) : Int × logging_context :=
  if L.output_function.isNone || new_transform.isNone then
    (0, L)
  else
    (1, { L with transform_function := new_transform })

/-- Function `logger_toggle` from logger.c, lines 340–344. -/
def logger_toggle (set_active : Bool) (L : logging_context) : logging_context :=
  if set_active == L.is_active then L else { L with is_active := set_active }

/-- Function `logger_get_status` from logger.c, lines 360–363. -/
def logger_get_status (L : logging_context) : Bool :=
  L.is_active

/-- Function `logger_is_initialized` from logger.c, lines 379–385. -/
def logger_is_initialized (L : logging_context) : Bool :=
  if L.transform_function.isSome && L.output_function.isSome
      && decide (LOGGER_EMERGENCY ≤ L.log_level) && decide (L.log_level ≤ LOGGER_DEBUG) then
    true
  else
    false

/-- Decimal rendering of an `Int`, used for `%ld` / `%i` / `%d`
conversions and as the opaque stand-in for `strftime`. -/
def int_chars (i : Int) : List Char :=
  (toString i).toList

/-- Model of `strftime(buf, cap, "%c", localtime(&timestamp))`: locale-dependent
library output, opaque to the logger; the code only uses that it is
nonempty.  Modelled as the decimal rendering of the timestamp. -/
def strftime_c (timestamp : Int) : List Char :=
  int_chars timestamp

/-- The uppercase `log_level_mapping` table of
`logger_factory_console_transform`. -/
def log_level_mapping_upper : List (List Char) :=
  ["EMERGENCY", "ALERT", "CRITICAL", "ERROR", "WARNING", "NOTICE", "INFO",
    "DEBUG"].map String.toList

/-- The lowercase `log_level_mapping` table of
`logger_factory_csv_transform`. -/
def log_level_mapping_lower : List (List Char) :=
  ["emergency", "alert", "critical", "error", "warning", "notice", "info",
    "debug"].map String.toList

/-- Conversion `%-10s`: left-justify in a field of width 10. -/
def pad_left_10 (s : List Char) : List Char :=
  s ++ List.replicate (10 - s.length) ' '

/-- Function `logger_factory_console_transform` from logger.c, lines 43–72.  The
null checks on `message`/`file` cannot fire through the dispatch path
(which always passes real buffers) and are not representable on
`List Char`; the severity-range check is kept.  `snprintf` into the
remainder of the 2048-unit buffer truncates the stored string to 2047
units. -/
def logger_factory_console_transform : TransformFn :=
  fun timestamp log_level file filenumber message =>
    if log_level < LOGGER_EMERGENCY || log_level > LOGGER_DEBUG then
      none
    else
      let stamp := strftime_c timestamp
      if stamp.length < 1 then
        none
      else
        let line := stamp ++ " ".toList
          ++ pad_left_10 (log_level_mapping_upper.getD log_level.toNat [])
          ++ " ".toList ++ file ++ ":".toList ++ int_chars filenumber
          ++ " - ".toList ++ message ++ "\n".toList
        some (line.take (LOGGER_MESSAGE_BUFFER - 1))

/-- Function `logger_factory_console_output` from logger.c, lines 74–79:
`fprintf(custom_object, message); return 1;` — delivers to the handle
and unconditionally reports success.  (`message == NULL` is undefined
behaviour in the C; the returned status is still the constant 1.) -/
def logger_factory_console_output : PushLogFn :=
  fun _ _ => 1

def stdout_handle : Option Nat := some 0

/-- Function `logger_factory_console` from logger.c, lines 81–84. -/
def logger_factory_console (log_level : Int) (L : logging_context) :
    Int × logging_context :=
  logger_setup_context log_level stdout_handle (some logger_factory_console_output)
    (some logger_factory_console_transform) true L

/-- Results of the library calls `fopen` and `atexit` made by
`logger_factory_file`, supplied as an oracle. -/
structure FileOracle where
  fopen_ok : Bool
  atexit_ok : Bool

def file_handle : Option Nat := some 1

/-- Function `logger_factory_file` from logger.c, lines 97–117. -/
def logger_factory_file (log_level : Int) (file_path : Option (List Char))
    (oracle : FileOracle) (L : logging_context) : Int × logging_context :=
  if file_path.isNone || log_level < LOGGER_EMERGENCY || log_level > LOGGER_DEBUG then
    (-1, L)
  else if oracle.fopen_ok == false then
    (-2, L)
  else if oracle.atexit_ok == false then
    (-3, L)
  else
    logger_setup_context log_level file_handle (some logger_factory_console_output)
      (some logger_factory_console_transform) true L

/-- Function `logger_factory_csv_transform` from logger.c, lines 119–143.  Same
conventions as the console transform; the record is
`"%ld,%s,%s,%i,%s\n"` truncated by `snprintf` to 2047 stored units, and
the `< 1` return check mirrors the C. -/
def logger_factory_csv_transform : TransformFn :=
  fun timestamp log_level file filenumber message =>
    if log_level < LOGGER_EMERGENCY || log_level > LOGGER_DEBUG then
      none
    else
      let line := int_chars timestamp ++ ",".toList
        ++ log_level_mapping_lower.getD log_level.toNat [] ++ ",".toList
        ++ file ++ ",".toList ++ int_chars filenumber ++ ",".toList
        ++ message ++ "\n".toList
      if line.length < 1 then
        none
      else
        some (line.take (LOGGER_MESSAGE_BUFFER - 1))

/-- One record written to the CSV destination file, tagged by the
`fprintf` call site that produced it: the header write inside
`logger_factory_csv`, or a delivery through the installed output
function.  `nullWrite` marks a delivery whose message pointer was NULL
(undefined behaviour in the C). -/
inductive CsvRecord where
  | header
  | data (line : List Char)
  | nullWrite
deriving DecidableEq

/-- The header line written by `logger_factory_csv`. -/
def csv_header_line : List Char :=
  "timestamp,priority,filename,linenumber,message\n".toList

/-- Rendering of a record as the units `fprintf` writes to the file. -/
def csv_record_chars : CsvRecord → List Char
  | .header => csv_header_line
  | .data line => line
  | .nullWrite => []

/-- Function `logger_factory_csv` from logger.c, lines 145–152.  The third
component is the list of records the factory itself writes to the
destination file (the single header `fprintf`, on success only). -/
def logger_factory_csv (log_level : Int) (file_path : Option (List Char))
    (oracle : FileOracle) (L : logging_context) :
    Int × logging_context × List CsvRecord :=
  let r := logger_factory_file log_level file_path oracle L
  if r.1 ≤ 0 then
    (r.1, r.2, [])
  else
    let r2 := logger_set_transform (some logger_factory_csv_transform) r.2
    (r.1, r2.2, [.header])

/-- One `logger_log` call's worth of arguments (the shorthand macros
`logger_emergency` … `logger_debug` expand to such a call). -/
structure LogCall where
  now : Int
  log_level : Int
  file : Option (List Char)
  linenumber : Int
  message : Option (List Char)
  interpolated : List Char

/-- Events of a sequence of `logger_log` calls against a fixed context
(`logger_log` never mutates the context). -/
def run_logs (L : logging_context) (calls : List LogCall) : List LogEvent :=
  calls.foldr
    (fun c acc =>
      logger_log L c.now c.log_level c.file c.linenumber c.message c.interpolated ++ acc)
    []

/-- The record a single event contributes to the destination file: each
invocation of the installed output function (`fprintf` to the handle)
appends its message as one data record; diagnostics go to stderr, not
to the file. -/
def sink_write_record (e : LogEvent) : Option CsvRecord :=
  match e with
  | .sinkCall _ (some m) => some (.data m)
  | .sinkCall _ none => some .nullWrite
  | _ => none

/-- Everything written to the CSV destination: the factory's own writes
followed by the data records of the dispatched calls. -/
def csv_file_records (log_level : Int) (file_path : Option (List Char))
    (oracle : FileOracle) (L : logging_context) (calls : List LogCall) :
    List CsvRecord :=
  let r := logger_factory_csv log_level file_path oracle L
  r.2.2 ++ (run_logs r.2.1 calls).filterMap sink_write_record

/-- Did a `logger_log` call invoke the transform capability? -/
def invokes_transform (es : List LogEvent) : Bool :=
  es.any fun e =>
    match e with
    | .transformCall .. => true
    | _ => false

/-- Did a `logger_log` call invoke the output (sink) capability? -/
def invokes_sink (es : List LogEvent) : Bool :=
  es.any fun e =>
    match e with
    | .sinkCall .. => true
    | _ => false

/-- The message argument of the first transform invocation, if any. -/
def transform_msg (es : List LogEvent) : Option (List Char) :=
  es.findSome? fun e =>
    match e with
    | .transformCall _ _ _ _ m => some m
    | _ => none

/-- A transform capability that accepts everything (raw passthrough). -/
def tf_id : TransformFn := fun _ _ _ _ m => some m

/-- A transform capability that always fails. -/
def tf_fail : TransformFn := fun _ _ _ _ _ => none

/-- An output capability that always reports success. -/
def sf_ok : PushLogFn := fun _ _ => 1

/-- A context as produced by a successful `logger_setup_context` with
threshold `7`, the always-succeeding capabilities and `active = true`;
used for concrete evaluations. -/
def demo_context : logging_context :=
  { log_level := 7
    output_object := some 0
    output_function := some sf_ok
    transform_function := some tf_id
    is_active := true }

example : (logger_setup_context 7 (some 0) (some sf_ok) (some tf_id) true zero_context).1 = 1 := by
  decide

example :
    logger_log demo_context 0 3 (some ['f']) 1 (some ['x']) ['x']
      = [.transformCall 0 3 ['f'] 1 ['x'], .sinkCall (some 0) (some ['x'])] := by
  decide

/-- A context with both capabilities installed, as a successful
`logger_setup_context` produces. -/
def context_of (T : Int) (obj : Option Nat) (sf : PushLogFn) (tf : TransformFn)
    (act : Bool) : logging_context :=
  { log_level := T
    output_object := obj
    output_function := some sf
    transform_function := some tf
    is_active := act }

/-- A successful setup returns status 1 and installs exactly the five
fields it was given. -/
theorem logger_setup_context_pos (T : Int) (obj : Option Nat) (sf : PushLogFn)
    (tf : TransformFn) (act : Bool) (L0 : logging_context)
    (hT0 : 0 ≤ T) (hT7 : T ≤ 7) :
    logger_setup_context T obj (some sf) (some tf) act L0
      = (1, context_of T obj sf tf act) := by
  have h1 : ¬ T < 0 := not_lt.mpr hT0
  have h2 : ¬ T > 7 := not_lt.mpr hT7
  simp [logger_setup_context, context_of, h1, h2]

/-- C3: `logger_setup_context` with a threshold outside [0,7] or a
missing capability returns a non-positive status and leaves every field
of the context exactly as it was. -/
theorem setup_invalid_leaves_context_unchanged (log_level : Int)
    (output_data : Option Nat) (output_function : Option PushLogFn)
    (transform_function : Option TransformFn) (is_active : Bool)
    (L : logging_context)
    (h : log_level < 0 ∨ 7 < log_level ∨ output_function = none ∨
      transform_function = none) :
    (logger_setup_context log_level output_data output_function
      transform_function is_active L).1 ≤ 0 ∧
    (logger_setup_context log_level output_data output_function
      transform_function is_active L).2 = L := by
  unfold logger_setup_context
  split
  · exact ⟨le_refl 0, rfl⟩
  · split
    · exact ⟨by norm_num, rfl⟩
    · rename_i hrange hfns
      simp only [Bool.or_eq_true, decide_eq_true_eq, not_or,
        Option.isNone_iff_eq_none] at hrange hfns
      rcases h with h | h | h | h
      · exact absurd h hrange.1
      · exact absurd h hrange.2
      · exact absurd h hfns.1
      · exact absurd h hfns.2

theorem setup_invalid_leaves_context_unchanged_witness :
    (logger_setup_context 8 none none none true zero_context).1 ≤ 0 ∧
    (logger_setup_context 8 none none none true zero_context).2 = zero_context :=
  setup_invalid_leaves_context_unchanged 8 none none none true zero_context
    (Or.inr (Or.inl (by decide)))

/-- C7: a `logger_log` call with a severity outside [0,7], a null file
name or a null format string emits exactly one stderr diagnostic and
returns; neither the transform nor the output capability is invoked. -/
theorem log_invalid_args_no_side_effects (L : logging_context)
    (now log_level linenumber : Int) (file message : Option (List Char))
    (interpolated : List Char)
    (h : log_level < 0 ∨ 7 < log_level ∨ message = none ∨ file = none) :
    logger_log L now log_level file linenumber message interpolated
      = [.diagnostic diag_invalid_call] ∧
    invokes_transform
      (logger_log L now log_level file linenumber message interpolated) = false ∧
    invokes_sink
      (logger_log L now log_level file linenumber message interpolated) = false := by
  have hc : (log_level < 0 || log_level > 7 || message.isNone || file.isNone)
      = true := by
    rcases h with h | h | h | h <;>
      simp [h, Option.isNone_iff_eq_none]
  have he : logger_log L now log_level file linenumber message interpolated
      = [.diagnostic diag_invalid_call] := by
    unfold logger_log
    rw [if_pos]
    exact of_decide_eq_true (by simpa using hc)
  refine ⟨he, ?_, ?_⟩ <;> rw [he] <;> rfl

theorem log_invalid_args_no_side_effects_witness :
    logger_log zero_context 0 8 (some ['f']) 1 (some ['x']) ['x']
      = [.diagnostic diag_invalid_call] ∧
    invokes_transform (logger_log zero_context 0 8 (some ['f']) 1 (some ['x']) ['x'])
      = false ∧
    invokes_sink (logger_log zero_context 0 8 (some ['f']) 1 (some ['x']) ['x'])
      = false :=
  log_invalid_args_no_side_effects zero_context 0 8 1 (some ['f']) (some ['x'])
    ['x'] (Or.inr (Or.inl (by decide)))

/-- C8: after `logger_toggle b`, `logger_get_status` returns `b`; and
toggling with the current value returns the context entirely unchanged
(the function has no failure mode: it returns `void`). -/
theorem toggle_sets_flag_and_is_idempotent (L : logging_context) (b : Bool) :
    logger_get_status (logger_toggle b L) = b ∧
    (b = L.is_active → logger_toggle b L = L) := by
  unfold logger_toggle logger_get_status
  by_cases hb : b = L.is_active
  · simp [hb]
  · simp [hb]

theorem toggle_sets_flag_and_is_idempotent_witness :
    logger_get_status (logger_toggle true demo_context) = true ∧
    logger_toggle true demo_context = demo_context :=
  ⟨(toggle_sets_flag_and_is_idempotent demo_context true).1,
    (toggle_sets_flag_and_is_idempotent demo_context true).2 rfl⟩

/-- C4 counterexample: on a validly initialised context,
`logger_set_loglevel 8` reports success (status 1) yet leaves the
context no longer `logger_is_initialized` — the setter only checks the
lower bound of the range. -/
theorem set_loglevel_success_breaks_initialized :
    logger_is_initialized demo_context = true ∧
    (logger_set_loglevel 8 demo_context).1 = 1 ∧
    logger_is_initialized (logger_set_loglevel 8 demo_context).2 = false := by
  decide

/-- C4 (amended): on an initialised context, every successful
`logger_set_output_callback`, `logger_set_transform` and every
`logger_toggle` preserves `logger_is_initialized`; a successful
`logger_set_loglevel` preserves it provided the new level is at most 7
(the code accepts any non-negative level, including out-of-range
ones). -/
theorem setters_preserve_initialized (L : logging_context)
    (hL : logger_is_initialized L = true) :
    (∀ l : Int, 0 < (logger_set_loglevel l L).1 → l ≤ 7 →
      logger_is_initialized (logger_set_loglevel l L).2 = true) ∧
    (∀ f : Option PushLogFn, 0 < (logger_set_output_callback f L).1 →
      logger_is_initialized (logger_set_output_callback f L).2 = true) ∧
    (∀ g : Option TransformFn, 0 < (logger_set_transform g L).1 →
      logger_is_initialized (logger_set_transform g L).2 = true) ∧
    (∀ b : Bool, logger_is_initialized (logger_toggle b L) = true) := by
  unfold logger_is_initialized at hL
  split at hL
  case isFalse => exact absurd hL (by simp)
  rename_i hinv
  simp only [Bool.and_eq_true, decide_eq_true_eq] at hinv
  obtain ⟨⟨⟨htf, hof⟩, hlo⟩, hhi⟩ := hinv
  have hlo' : (0 : Int) ≤ L.log_level := hlo
  have hhi' : L.log_level ≤ (7 : Int) := hhi
  refine ⟨?_, ?_, ?_, ?_⟩
  · intro l hpos hl7
    unfold logger_set_loglevel at hpos ⊢
    by_cases hc : (l < 0 || L.log_level == l) = true
    · rw [if_pos hc] at hpos
      norm_num at hpos
    · rw [if_neg hc] at hpos ⊢
      simp only [Bool.or_eq_true, decide_eq_true_eq, not_or] at hc
      simp [logger_is_initialized, LOGGER_EMERGENCY, LOGGER_DEBUG, htf, hof,
        not_lt.mp hc.1, hl7]
  · intro f hpos
    unfold logger_set_output_callback at hpos ⊢
    by_cases hc : (L.output_function.isNone || f.isNone) = true
    · rw [if_pos hc] at hpos
      norm_num at hpos
    · rw [if_neg hc] at hpos ⊢
      simp only [Bool.or_eq_true, Option.isNone_iff_eq_none, not_or] at hc
      have hf : f.isSome = true := Option.ne_none_iff_isSome.mp hc.2
      simp [logger_is_initialized, LOGGER_EMERGENCY, LOGGER_DEBUG, htf, hf,
        hlo', hhi']
  · intro g hpos
    unfold logger_set_transform at hpos ⊢
    by_cases hc : (L.output_function.isNone || g.isNone) = true
    · rw [if_pos hc] at hpos
      norm_num at hpos
    · rw [if_neg hc] at hpos ⊢
      simp only [Bool.or_eq_true, Option.isNone_iff_eq_none, not_or] at hc
      have hg : g.isSome = true := Option.ne_none_iff_isSome.mp hc.2
      simp [logger_is_initialized, LOGGER_EMERGENCY, LOGGER_DEBUG, hof, hg,
        hlo', hhi']
  · intro b
    unfold logger_toggle
    by_cases hc : (b == L.is_active) = true
    · rw [if_pos hc]
      simp [logger_is_initialized, LOGGER_EMERGENCY, LOGGER_DEBUG, htf, hof,
        hlo', hhi']
    · rw [if_neg hc]
      simp [logger_is_initialized, LOGGER_EMERGENCY, LOGGER_DEBUG, htf, hof,
        hlo', hhi']

theorem setters_preserve_initialized_witness :
    logger_is_initialized (logger_set_loglevel 3 demo_context).2 = true ∧
    logger_is_initialized (logger_toggle false demo_context) = true :=
  ⟨(setters_preserve_initialized demo_context (by decide)).1 3 (by decide)
      (by decide),
    (setters_preserve_initialized demo_context (by decide)).2.2.2 false⟩

/-- C6 counterexample: on the never-set-up zero context,
`logger_set_loglevel 3` reports success (status 1) and mutates the
threshold from 0 to 3. -/
theorem set_loglevel_succeeds_before_setup :
    (logger_set_loglevel 3 zero_context).1 = 1 ∧
    (logger_set_loglevel 3 zero_context).2.log_level = 3 ∧
    zero_context.log_level = 0 := by
  decide

/-- C6 (amended): on the never-set-up zero context,
`logger_set_output_callback` and `logger_set_transform` fail (status 0)
without mutating anything; but `logger_set_loglevel` succeeds and
mutates the threshold for any positive level (only negativity and
equality with the current value are rejected), and `logger_toggle true`
mutates the active flag (the function returns nothing, so it cannot
report failure). -/
theorem setters_on_zero_context (f : Option PushLogFn) (g : Option TransformFn)
    (l : Int) :
    logger_set_output_callback f zero_context = (0, zero_context) ∧
    logger_set_transform g zero_context = (0, zero_context) ∧
    (0 < l → logger_set_loglevel l zero_context
      = (1, { zero_context with log_level := l })) ∧
    logger_toggle true zero_context = { zero_context with is_active := true } := by
  refine ⟨?_, ?_, ?_, ?_⟩
  · simp [logger_set_output_callback, zero_context]
  · simp [logger_set_transform, zero_context]
  · intro hl
    have h1 : ¬ l < 0 := not_lt.mpr (le_of_lt hl)
    have h2 : ((0 : Int) == l) = false := by
      simp [hl.ne]
    simp [logger_set_loglevel, zero_context, h1, h2]
  · simp [logger_toggle, zero_context]

theorem setters_on_zero_context_witness :
    logger_set_output_callback none zero_context = (0, zero_context) ∧
    logger_set_loglevel 3 zero_context
      = (1, { zero_context with log_level := 3 }) :=
  ⟨(setters_on_zero_context none none 3).1,
    (setters_on_zero_context none none 3).2.2.1 (by decide)⟩

/-- A call that passes argument validation but is filtered out — severity
above the threshold or logger inactive — produces no event at all. -/
theorem logger_log_filtered (L : logging_context) (now S linenumber : Int)
    (f fmt interpolated : List Char) (hS0 : 0 ≤ S) (hS7 : S ≤ 7)
    (h : L.log_level < S ∨ L.is_active = false) :
    logger_log L now S (some f) linenumber (some fmt) interpolated = [] := by
  have h1 : ¬ S < 0 := not_lt.mpr hS0
  have h2 : ¬ S > 7 := not_lt.mpr hS7
  have hv : ¬ ((S < 0 || S > 7 || (some fmt : Option (List Char)).isNone
      || (some f : Option (List Char)).isNone) = true) := by
    simp [h1, h2]
  have hc : (S > L.log_level || L.is_active == false) = true := by
    rcases h with h | h
    · simp [h]
    · simp [h]
  unfold logger_log
  rw [if_neg hv, if_pos hc]

/-- A call that passes validation and the filter on an active context
with both capabilities installed invokes the transform on the
`vsnprintf`-truncated buffer, then the output function on the transform
result, then diagnoses a non-positive delivery status. -/
theorem logger_log_delivers (T : Int) (obj : Option Nat) (sf : PushLogFn)
    (tf : TransformFn) (now S linenumber : Int) (f fmt interpolated : List Char)
    (hS0 : 0 ≤ S) (hS7 : S ≤ 7) (hST : S ≤ T) (hne : interpolated ≠ []) :
    logger_log (context_of T obj sf tf true) now S (some f) linenumber
        (some fmt) interpolated
      = [.transformCall now S f linenumber
            (interpolated.take (LOGGER_MESSAGE_BUFFER - 1)),
          .sinkCall obj
            (tf now S f linenumber (interpolated.take (LOGGER_MESSAGE_BUFFER - 1)))]
        ++ (if sf obj (tf now S f linenumber
              (interpolated.take (LOGGER_MESSAGE_BUFFER - 1))) < 1
            then [.diagnostic diag_push_failed] else []) := by
  have h1 : ¬ S < 0 := not_lt.mpr hS0
  have h2 : ¬ S > 7 := not_lt.mpr hS7
  have h3 : ¬ S > T := not_lt.mpr hST
  have hlen : 0 < interpolated.length := List.length_pos.mpr hne
  have hv : ¬ ((S < 0 || S > 7 || (some fmt : Option (List Char)).isNone
      || (some f : Option (List Char)).isNone) = true) := by
    simp [h1, h2]
  have hfil : ¬ ((S > (context_of T obj sf tf true).log_level
      || (context_of T obj sf tf true).is_active == false) = true) := by
    simp [context_of, h3]
  have h4 : ¬ ((interpolated.length : Int) < 1) := by omega
  unfold logger_log
  rw [if_neg hv, if_neg hfil]
  simp [vsnprintf_model, context_of, h4]

/-- C1 counterexample: after a successful setup with threshold 7 and
active = true, a call at valid severity 0 with non-null file and
non-null (empty) format string invokes neither the transform nor the
sink, because the interpolated message is empty — refuting the claimed
"invoked if and only if active and S ≤ T". -/
theorem filter_law_fails_on_empty_interpolation :
    (logger_setup_context 7 (some 0) (some sf_ok) (some tf_id) true
      zero_context).1 = 1 ∧
    (logger_setup_context 7 (some 0) (some sf_ok) (some tf_id) true
      zero_context).2.is_active = true ∧
    invokes_transform (logger_log (logger_setup_context 7 (some 0) (some sf_ok)
      (some tf_id) true zero_context).2 0 0 (some ['f']) 1 (some []) []) = false ∧
    invokes_sink (logger_log (logger_setup_context 7 (some 0) (some sf_ok)
      (some tf_id) true zero_context).2 0 0 (some ['f']) 1 (some []) []) = false := by
  decide

/-- C1 (amended): after a successful setup with threshold `T` in [0,7],
for a call at valid severity `S` with non-null file and format string
*whose interpolated raw message is non-empty*, the transform and the
sink are invoked iff `active = true` and `S ≤ T`; when `active = false`
or `S > T` the call produces no event at all. -/
theorem filter_law (T : Int) (obj : Option Nat) (sf : PushLogFn)
    (tf : TransformFn) (act : Bool) (L0 : logging_context)
    (now S linenumber : Int) (f fmt interpolated : List Char)
    (hT0 : 0 ≤ T) (hT7 : T ≤ 7) (hS0 : 0 ≤ S) (hS7 : S ≤ 7)
    (hne : interpolated ≠ []) :
    (logger_setup_context T obj (some sf) (some tf) act L0).1 = 1 ∧
    (invokes_transform (logger_log (logger_setup_context T obj (some sf)
        (some tf) act L0).2 now S (some f) linenumber (some fmt) interpolated)
      = true ↔ act = true ∧ S ≤ T) ∧
    (invokes_sink (logger_log (logger_setup_context T obj (some sf)
        (some tf) act L0).2 now S (some f) linenumber (some fmt) interpolated)
      = true ↔ act = true ∧ S ≤ T) ∧
    (act = false ∨ T < S →
      logger_log (logger_setup_context T obj (some sf) (some tf) act L0).2
        now S (some f) linenumber (some fmt) interpolated = []) := by
  rw [logger_setup_context_pos T obj sf tf act L0 hT0 hT7]
  refine ⟨rfl, ?_⟩
  by_cases hact : act = true
  · subst hact
    by_cases hle : S ≤ T
    · rw [logger_log_delivers T obj sf tf now S linenumber f fmt interpolated
        hS0 hS7 hle hne]
      refine ⟨?_, ?_, ?_⟩
      · simp [invokes_transform, hle]
      · simp [invokes_sink, hle]
      · intro h
        rcases h with h | h
        · exact absurd h (by simp)
        · exact absurd hle (not_le.mpr h)
    · have he : logger_log (context_of T obj sf tf true) now S (some f)
          linenumber (some fmt) interpolated = [] :=
        logger_log_filtered (context_of T obj sf tf true) now S linenumber
          f fmt interpolated hS0 hS7 (Or.inl (not_le.mp hle))
      rw [he]
      refine ⟨?_, ?_, fun _ => rfl⟩
      · simp [invokes_transform, hle]
      · simp [invokes_sink, hle]
  · have hact' : act = false := by
      cases act
      · rfl
      · exact absurd rfl hact
    subst hact'
    have he : logger_log (context_of T obj sf tf false) now S (some f)
        linenumber (some fmt) interpolated = [] :=
      logger_log_filtered (context_of T obj sf tf false) now S linenumber
        f fmt interpolated hS0 hS7 (Or.inr rfl)
    rw [he]
    refine ⟨?_, ?_, fun _ => rfl⟩
    · simp [invokes_transform]
    · simp [invokes_sink]

theorem filter_law_witness :
    (logger_setup_context 7 (some 0) (some sf_ok) (some tf_id) true
      zero_context).1 = 1 ∧
    (invokes_sink (logger_log (logger_setup_context 7 (some 0) (some sf_ok)
        (some tf_id) true zero_context).2 0 4 (some ['f']) 1 (some ['x']) ['x'])
      = true ↔ true = true ∧ (4 : Int) ≤ 7) :=
  ⟨(filter_law 7 (some 0) sf_ok tf_id true zero_context 0 4 1 ['f'] ['x'] ['x']
      (by decide) (by decide) (by decide) (by decide) (by decide)).1,
    (filter_law 7 (some 0) sf_ok tf_id true zero_context 0 4 1 ['f'] ['x'] ['x']
      (by decide) (by decide) (by decide) (by decide) (by decide)).2.2.1⟩

/-- C2: the code composes `output_function(output_object,
transform_function(...))` with no check between the two, so when the
transform returns NULL the sink is still invoked — with a NULL message.
Evaluated here at a concrete failing input: threshold 7, active,
always-failing transform, valid call at severity 0. -/
theorem transform_null_still_calls_sink :
    logger_log (context_of 7 (some 0) sf_ok tf_fail true) 5 0 (some ['f']) 1
        (some ['x']) ['x']
      = [.transformCall 5 0 ['f'] 1 ['x'], .sinkCall (some 0) none] ∧
    invokes_sink (logger_log (context_of 7 (some 0) sf_ok tf_fail true) 5 0
      (some ['f']) 1 (some ['x']) ['x']) = true := by
  decide

/-- C10: a call that passes validation and the filter but whose
interpolated raw message is empty (`vsnprintf` reports fewer than one
unit written) aborts with a single diagnostic; neither the transform nor
the sink is invoked. -/
theorem empty_interpolation_aborts (L : logging_context)
    (now S linenumber : Int) (f fmt : List Char)
    (hS0 : 0 ≤ S) (hS7 : S ≤ 7) (hfil : S ≤ L.log_level)
    (hact : L.is_active = true) :
    logger_log L now S (some f) linenumber (some fmt) []
      = [.diagnostic diag_empty_format] ∧
    invokes_transform (logger_log L now S (some f) linenumber (some fmt) [])
      = false ∧
    invokes_sink (logger_log L now S (some f) linenumber (some fmt) [])
      = false := by
  have h1 : ¬ S < 0 := not_lt.mpr hS0
  have h2 : ¬ S > 7 := not_lt.mpr hS7
  have h3 : ¬ S > L.log_level := not_lt.mpr hfil
  have he : logger_log L now S (some f) linenumber (some fmt) []
      = [.diagnostic diag_empty_format] := by
    simp [logger_log, vsnprintf_model, h1, h2, h3, hact]
  refine ⟨he, ?_, ?_⟩ <;> rw [he] <;> rfl

theorem empty_interpolation_aborts_witness :
    logger_log demo_context 0 0 (some ['f']) 1 (some ['x']) []
      = [.diagnostic diag_empty_format] ∧
    invokes_transform (logger_log demo_context 0 0 (some ['f']) 1 (some ['x']) [])
      = false ∧
    invokes_sink (logger_log demo_context 0 0 (some ['f']) 1 (some ['x']) [])
      = false :=
  empty_interpolation_aborts demo_context 0 0 1 ['f'] ['x'] (by decide)
    (by decide) (by decide) (by decide)

/-- C5 counterexample: a raw message whose full interpolated length is
exactly `LOGGER_MESSAGE_BUFFER` (2048) reaches the transformer with only
2047 units — `vsnprintf` keeps one unit for the terminator — so it is
*not* preserved in full at exactly the capacity. -/
theorem capacity_length_message_truncated :
    transform_msg (logger_log (context_of 7 (some 0) sf_ok tf_id true) 0 0
        (some ['f']) 1 (some ['x']) (List.replicate LOGGER_MESSAGE_BUFFER 'a'))
      = some (List.replicate (LOGGER_MESSAGE_BUFFER - 1) 'a') ∧
    List.replicate (LOGGER_MESSAGE_BUFFER - 1) 'a'
      ≠ List.replicate LOGGER_MESSAGE_BUFFER 'a' := by
  have hne : List.replicate LOGGER_MESSAGE_BUFFER 'a' ≠ [] := by
    apply List.ne_nil_of_length_pos
    rw [List.length_replicate]
    norm_num [LOGGER_MESSAGE_BUFFER]
  have htake : (List.replicate LOGGER_MESSAGE_BUFFER 'a').take
      (LOGGER_MESSAGE_BUFFER - 1) = List.replicate (LOGGER_MESSAGE_BUFFER - 1) 'a' := by
    rw [List.take_replicate]
    norm_num [LOGGER_MESSAGE_BUFFER]
  constructor
  · rw [logger_log_delivers 7 (some 0) sf_ok tf_id 0 0 1 ['f'] ['x']
      (List.replicate LOGGER_MESSAGE_BUFFER 'a') (by decide) (by decide)
      (by decide) hne, htake]
    rfl
  · intro h
    have hlen := congrArg List.length h
    rw [List.length_replicate, List.length_replicate] at hlen
    norm_num [LOGGER_MESSAGE_BUFFER] at hlen

/-- C5 (amended): the message content reaching the transformer is the
interpolated raw message truncated to `LOGGER_MESSAGE_BUFFER - 1` (2047)
units, one unit being reserved for the terminator.  A non-empty message
of length at most 2047 is preserved in full; a message of length 2048 or
more arrives truncated to exactly 2047 units; in both cases the dispatch
proceeds straight to the transform (the first event is the transform
invocation — truncation is never diagnosed as an error). -/
theorem truncation_boundary (T now S linenumber : Int) (obj : Option Nat)
    (sf : PushLogFn) (tf : TransformFn) (f fmt interpolated : List Char)
    (hS0 : 0 ≤ S) (hS7 : S ≤ 7) (hST : S ≤ T) :
    (interpolated ≠ [] ∧ interpolated.length ≤ LOGGER_MESSAGE_BUFFER - 1 →
      transform_msg (logger_log (context_of T obj sf tf true) now S (some f)
          linenumber (some fmt) interpolated) = some interpolated ∧
      (logger_log (context_of T obj sf tf true) now S (some f) linenumber
          (some fmt) interpolated).head?
        = some (.transformCall now S f linenumber interpolated)) ∧
    (LOGGER_MESSAGE_BUFFER ≤ interpolated.length →
      transform_msg (logger_log (context_of T obj sf tf true) now S (some f)
          linenumber (some fmt) interpolated)
        = some (interpolated.take (LOGGER_MESSAGE_BUFFER - 1)) ∧
      (interpolated.take (LOGGER_MESSAGE_BUFFER - 1)).length
        = LOGGER_MESSAGE_BUFFER - 1 ∧
      (logger_log (context_of T obj sf tf true) now S (some f) linenumber
          (some fmt) interpolated).head?
        = some (.transformCall now S f linenumber
            (interpolated.take (LOGGER_MESSAGE_BUFFER - 1)))) := by
  constructor
  · rintro ⟨hne, hlen⟩
    have htake : interpolated.take (LOGGER_MESSAGE_BUFFER - 1) = interpolated :=
      List.take_of_length_le hlen
    rw [logger_log_delivers T obj sf tf now S linenumber f fmt interpolated
      hS0 hS7 hST hne, htake]
    exact ⟨rfl, rfl⟩
  · intro hlen
    have hne : interpolated ≠ [] := by
      intro h
      rw [h] at hlen
      simp [LOGGER_MESSAGE_BUFFER] at hlen
    rw [logger_log_delivers T obj sf tf now S linenumber f fmt interpolated
      hS0 hS7 hST hne]
    refine ⟨rfl, ?_, rfl⟩
    rw [List.length_take]
    omega

theorem truncation_boundary_witness :
    transform_msg (logger_log (context_of 7 (some 0) sf_ok tf_id true) 0 0
        (some ['f']) 1 (some ['x']) ['x']) = some ['x'] :=
  ((truncation_boundary 7 0 0 1 (some 0) sf_ok tf_id ['f'] ['x'] ['x']
      (by decide) (by decide) (by decide)).1 ⟨by decide, by decide⟩).1

/-- Deliveries through the output function only ever append data (or
null-write) records — no event of a dispatched call can produce the
header record, whose only write site is inside `logger_factory_csv`. -/
theorem header_not_in_sink_records (es : List LogEvent) :
    CsvRecord.header ∉ es.filterMap sink_write_record := by
  induction es with
  | nil => simp
  | cons e es ih =>
    cases e with
    | diagnostic m => simpa [sink_write_record] using ih
    | transformCall t s f l m => simpa [sink_write_record] using ih
    | sinkCall obj msg =>
      cases msg with
      | none => simp [sink_write_record, ih]
      | some m => simp [sink_write_record, ih]
    | nullCall => simpa [sink_write_record] using ih

/-- C9: when the tabular preset is configured successfully, the
destination file holds exactly one header record, written by the factory
itself before any data record, however many messages are dispatched
afterwards; when the underlying file preset fails, the factory writes no
header at all. -/
theorem csv_header_written_once (log_level : Int) (file_path : Option (List Char))
    (oracle : FileOracle) (L : logging_context) (calls : List LogCall) :
    (0 < (logger_factory_csv log_level file_path oracle L).1 →
      (csv_file_records log_level file_path oracle L calls).head?
        = some .header ∧
      (csv_file_records log_level file_path oracle L calls).count .header
        = 1) ∧
    ((logger_factory_file log_level file_path oracle L).1 ≤ 0 →
      (logger_factory_csv log_level file_path oracle L).2.2 = [] ∧
      (csv_file_records log_level file_path oracle L calls).count .header
        = 0) := by
  unfold csv_file_records logger_factory_csv
  by_cases hr : (logger_factory_file log_level file_path oracle L).1 ≤ 0
  · rw [if_pos hr]
    constructor
    · intro hpos
      exact absurd hr (not_le.mpr hpos)
    · intro _
      refine ⟨rfl, ?_⟩
      rw [List.nil_append]
      exact List.count_eq_zero.mpr (header_not_in_sink_records _)
  · rw [if_neg hr]
    constructor
    · intro _
      constructor
      · rw [List.singleton_append]
        rfl
      · rw [List.singleton_append, List.count_cons_self,
          List.count_eq_zero.mpr (header_not_in_sink_records _)]
    · intro h
      exact absurd h hr

def demo_call : LogCall :=
  { now := 0
    log_level := 6
    file := some ['f']
    linenumber := 1
    message := some ['x']
    interpolated := ['x'] }

theorem csv_header_written_once_witness :
    (csv_file_records 7 (some ['p']) (FileOracle.mk true true) zero_context
      [demo_call]).count .header = 1 ∧
    (logger_factory_csv 7 none (FileOracle.mk true true) zero_context).2.2 = [] :=
  ⟨((csv_header_written_once 7 (some ['p']) (FileOracle.mk true true)
      zero_context [demo_call]).1 (by decide)).2,
    ((csv_header_written_once 7 none (FileOracle.mk true true) zero_context
      []).2 (by decide)).1⟩
